import Mathlib

/-!
Shallow embedding of `mixpanel.go` (package `mixpanel`), a thin client for
the Mixpanel HTTP ingestion API, together with theorems settling the spec
claims about it.

Modelling choices:
* Go `interface{}` values stored in property maps are modelled by the
  inductive `JVal` of JSON-serializable values, plus a constructor
  `unsupported` standing for any Go value `encoding/json.Marshal` rejects
  (channels, functions, `math.Inf`, ...).
* Go `map[string]interface{}` is modelled by an association list `JObj`
  with overwriting assignment `JObj.set` and lookup `JObj.get`; Go maps
  cannot hold duplicate keys, so theorems that read a caller-supplied map
  assume its key list is duplicate-free.
* `*time.Time` fields are modelled by their only observation in the code,
  `Unix()` (epoch seconds, an integer).  `Update.Timestamp` is a three-way
  pointer: `null`, the distinguished global sentinel `IgnoreTime`
  (compared by pointer identity in the code), or a concrete time.
* `json.Marshal` is modelled by `marshal`: it fails exactly when the value
  contains an `unsupported` leaf, and otherwise renders JSON text via
  `JVal.render` (a simplified renderer; Go additionally sorts object keys
  and HTML-escapes strings, details no claim depends on).
* The HTTP transport (`http.Post`) is a parameter of type `Transport`:
  given url, content type and body it either fails with an error message
  (and, as `net/http` guarantees on client errors, a nil response) or
  delivers a response.  `sendPost` is modelled statement by statement,
  including the bug that the wrapped errors built after `json.Marshal`,
  `http.Post` and `ioutil.ReadAll` failures are discarded rather than
  returned, so that a nil response from a failed POST is dereferenced by
  `resp.Body.Close()` (outcome `nilDeref`).
* `*http.Client` is opaque to the whole file (the submission path calls
  `http.Post`, which uses the package-default client), so it is modelled
  by an opaque identity `Nat`.
-/

namespace Mixpanel

/-- A JSON-serializable Go value (`interface{}`); `unsupported` stands for
any value `encoding/json.Marshal` rejects. -/
inductive JVal where
  | null
  | bool (b : Bool)
  | num (n : Int)
  | str (s : String)
  | arr (elems : List JVal)
  | obj (fields : List (String × JVal))
  | unsupported


/-- A Go `map[string]interface{}`, as an association list. -/
abbrev JObj := List (String × JVal)

/-- Go map assignment `o[k] = v`: overwrite the binding of `k`, or add one. -/
def JObj.set : JObj → String → JVal → JObj
  | [], k, v => [(k, v)]
  | p :: ps, k, v => if p.1 = k then (k, v) :: ps else p :: JObj.set ps k v

/-- Go map lookup `o[k]`. -/
def JObj.get : JObj → String → Option JVal
  | [], _ => none
  | p :: ps, k => if p.1 = k then some p.2 else JObj.get ps k

/-- Go `for key, value := range src { dst[key] = value }`. -/
def JObj.mergeInto (dst src : JObj) : JObj :=
  src.foldl (fun acc p => JObj.set acc p.1 p.2) dst

mutual

/-- Whether `encoding/json.Marshal` accepts the value: true iff no
`unsupported` leaf occurs in it. -/
def JVal.serializable : JVal → Bool
  | .null => true
  | .bool _ => true
  | .num _ => true
  | .str _ => true
  | .unsupported => false
  | .arr es => serializableList es
  | .obj fs => serializableFields fs

/-- All elements of the list are serializable. -/
def serializableList : List JVal → Bool
  | [] => true
  | v :: vs => v.serializable && serializableList vs

/-- All values of the field list are serializable. -/
def serializableFields : List (String × JVal) → Bool
  | [] => true
  | (_, v) :: fs => v.serializable && serializableFields fs

end

/-- JSON escaping of the characters that need it here, over a char list. -/
def escapeChars : List Char → List Char
  | [] => []
  | c :: cs =>
    if c = '"' then '\\' :: '"' :: escapeChars cs
    else if c = '\\' then '\\' :: '\\' :: escapeChars cs
    else c :: escapeChars cs

/-- JSON string escaping for the characters that need it here. -/
def escapeString (s : String) : String :=
  ⟨escapeChars s.data⟩

mutual

/-- JSON text of a serializable value (a simplified model of the output of
`encoding/json.Marshal`; Go additionally sorts object keys). -/
def JVal.render : JVal → String
  | .null => "null"
  | .bool true => "true"
  | .bool false => "false"
  | .num n => toString n
  | .str s => "\"" ++ escapeString s ++ "\""
  | .unsupported => ""
  | .arr es => "[" ++ renderList es ++ "]"
  | .obj fs => "\x7b" ++ renderFields fs ++ "\x7d"

/-- Comma-separated rendering of array elements. -/
def renderList : List JVal → String
  | [] => ""
  | v :: vs => v.render ++ renderListTail vs

/-- The remaining array elements, each preceded by a comma. -/
def renderListTail : List JVal → String
  | [] => ""
  | v :: vs => "," ++ v.render ++ renderListTail vs

/-- Comma-separated rendering of object fields. -/
def renderFields : List (String × JVal) → String
  | [] => ""
  | (k, v) :: fs => "\"" ++ escapeString k ++ "\":" ++ v.render ++ renderFieldsTail fs

/-- The remaining object fields, each preceded by a comma. -/
def renderFieldsTail : List (String × JVal) → String
  | [] => ""
  | (k, v) :: fs => ",\"" ++ escapeString k ++ "\":" ++ v.render ++ renderFieldsTail fs

end

/-- `encoding/json.Marshal`: fails exactly on unsupported values, otherwise
produces the JSON text. -/
def marshal (v : JVal) : Option String :=
  if v.serializable then some v.render else none

/-- The result of reading the body of a delivered `*http.Response`:
`readData` is what `ioutil.ReadAll` returned (possibly partial bytes), and
`readErr` its error, if any.  The Go code never reads the status code. -/
structure HttpResp where
  readData : String
  readErr : Option String


/-- The `(resp, err)` pair returned by `http.Post`.  On a client error the
response is nil (`err msg none`) — `net/http` documents that on error any
response can be ignored, and transport failures return a nil response. -/
inductive PostResult where
  | err (msg : String) (resp : Option HttpResp)
  | ok (resp : HttpResp)


/-- The HTTP transport behind `http.Post`: url, content type, body ↦ result. -/
abbrev Transport := String → String → String → PostResult

/-- `ErrTrackFailed`: `Body` string and the response, if available. -/
structure ErrTrackFailed where
  Body : String
  Resp : Option HttpResp


/-- `func (err *ErrTrackFailed) Error() string`. -/
def ErrTrackFailed.errorMsg (e : ErrTrackFailed) : String :=
  "Mixpanel did not return 1 when tracking: " ++ e.Body

/-- `MixpanelError`: the outer wrapping error recording the request URL. -/
structure MixpanelError where
  URL : String
  Err : ErrTrackFailed


/-- `func (err *MixpanelError) Error() string`. -/
def MixpanelError.errorMsg (e : MixpanelError) : String :=
  "mixpanel: " ++ e.Err.errorMsg

/-- What a call to `sendPost` does: return nil, return an error, or crash
with a nil-pointer dereference (`resp.Body.Close()` on a nil response). -/
inductive Outcome where
  | ok
  | err (e : MixpanelError)
  | nilDeref


/-- Result of running `sendPost`: the outcome, and the `(url, contentType,
body)` triple passed to `http.Post` when the POST was issued. -/
structure SendResult where
  outcome : Outcome
  posted : Option (String × String × String)


/-- The `type mixpanel struct` value: an (opaque) `*http.Client`, the
project token and the API base URL. -/
structure mixpanel where
  Client : Nat
  Token : String
  ApiURL : String


/-- The tail of `sendPost` once a non-nil response is in hand: an
`ioutil.ReadAll` error is wrapped but the wrapped error is discarded (the
fall-through bug), so only the bytes read decide the outcome: body `"1"`
yields nil, anything else the "response not 1" error. -/
def finishRead (url postBody : String) (resp : HttpResp) : SendResult :=
  if resp.readData = "1" then
    { outcome := .ok, posted := some (url, "application/json", postBody) }
  else
    { outcome := .err ⟨url, ⟨"response not 1", some resp⟩⟩,
      posted := some (url, "application/json", postBody) }

/-- The `url := m.ApiURL + "/" + eventType` binding in `sendPost`. -/
def postURL (m : mixpanel) (eventType : String) : String :=
  m.ApiURL ++ "/" ++ eventType

/-- The `postBody` bytes handed to `http.Post`: the params wrapped in a
one-element array and marshalled; on a marshal error `postBody` stays nil
(an empty buffer), because the wrapped error is discarded. -/
def postBody (params : JVal) : String :=
  (marshal (JVal.arr [params])).getD ""

/-- `func (m *mixpanel) sendPost(eventType string, params interface{}) error`.
A marshal error is wrapped but discarded, so the POST is still issued
(with an empty body).  A POST error is likewise wrapped but discarded;
with the nil response `net/http` returns on failure, execution reaches
`resp.Body.Close()` and dereferences nil (`nilDeref`). -/
def sendPost (m : mixpanel) (eventType : String) (params : JVal) (t : Transport) :
    SendResult :=
  match t (postURL m eventType) "application/json" (postBody params) with
  | .err _ none =>
    { outcome := .nilDeref,
      posted := some (postURL m eventType, "application/json", postBody params) }
  | .err _ (some resp) => finishRead (postURL m eventType) (postBody params) resp
  | .ok resp => finishRead (postURL m eventType) (postBody params) resp

/-- `type Event struct`: IP (empty = autodetect), optional timestamp
(epoch seconds), custom properties. -/
structure Event where
  IP : String
  Timestamp : Option Int
  Properties : JObj


/-- The three states of `Update.Timestamp` (`*time.Time` compared by
pointer identity against the global `IgnoreTime`). -/
inductive TimestampPtr where
  | null
  | ignoreSentinel
  | time (unixSec : Int)


/-- `type Update struct`: IP, timestamp pointer, operation name, properties. -/
structure Update where
  IP : String
  Timestamp : TimestampPtr
  Operation : String
  Properties : JObj


/-- The `params` map built by `Alias`. -/
def aliasParams (m : mixpanel) (distinctId newId : String) : JVal :=
  .obj [("event", .str "$create_alias"),
        ("properties", .obj [("token", .str m.Token),
                             ("distinct_id", .str distinctId),
                             ("alias", .str newId)])]

/-- The `props` map built by `Track`: token and distinct_id, then ip and
time when present, then the event's custom properties merged in last. -/
def trackProps (m : mixpanel) (distinctId : String) (e : Event) : JObj :=
  let props : JObj := [("token", .str m.Token), ("distinct_id", .str distinctId)]
  let props := if e.IP ≠ "" then props.set "ip" (.str e.IP) else props
  let props :=
    match e.Timestamp with
    | some ts => props.set "time" (.num ts)
    | none => props
  JObj.mergeInto props e.Properties

/-- The `params` map built by `Track`. -/
def trackParams (m : mixpanel) (distinctId eventName : String) (e : Event) : JVal :=
  .obj [("event", .str eventName), ("properties", .obj (trackProps m distinctId e))]

/-- The `params` map built by `UpdateUser`: token and distinct id, then
`$ip`, then `$ignore_time` or `$time` depending on the timestamp pointer,
then the operation key set last. -/
def updateUserParams (m : mixpanel) (distinctId : String) (u : Update) : JObj :=
  let params : JObj := [("$token", .str m.Token), ("$distinct_id", .str distinctId)]
  let params := if u.IP ≠ "" then params.set "$ip" (.str u.IP) else params
  let params :=
    match u.Timestamp with
    | .ignoreSentinel => params.set "$ignore_time" (.bool true)
    | .time ts => params.set "$time" (.num ts)
    | .null => params
  params.set u.Operation (.obj u.Properties)

/-- The `params` map built by `UnionUser`: token, distinct id and the
operation key only — IP and Timestamp are not consulted. -/
def unionUserParams (m : mixpanel) (userID : String) (u : Update) : JObj :=
  JObj.set [("$token", .str m.Token), ("$distinct_id", .str userID)]
    u.Operation (.obj u.Properties)

/-- The `params` map built by `UpdateGroup`. -/
def updateGroupParams (m : mixpanel) (groupKey groupId : String) (u : Update) : JObj :=
  JObj.set [("$token", .str m.Token), ("$group_id", .str groupId),
            ("$group_key", .str groupKey)]
    u.Operation (.obj u.Properties)

/-- The `params` map built by `UnionGroup` (same shape as `UpdateGroup`). -/
def unionGroupParams (m : mixpanel) (groupKey groupId : String) (u : Update) : JObj :=
  JObj.set [("$token", .str m.Token), ("$group_id", .str groupId),
            ("$group_key", .str groupKey)]
    u.Operation (.obj u.Properties)

/-- A call to one of the six public operations, with its arguments. -/
inductive Call where
  | track (distinctId eventName : String) (e : Event)
  | updateUser (distinctId : String) (u : Update)
  | unionUser (userID : String) (u : Update)
  | updateGroup (groupKey groupId : String) (u : Update)
  | unionGroup (groupKey groupId : String) (u : Update)
  | alias (distinctId newId : String)

/-- The sub-path each operation hands to `sendPost`. -/
def Call.subPath : Call → String
  | .track .. => "track"
  | .updateUser .. => "engage"
  | .unionUser .. => "engage#profile-union"
  | .updateGroup .. => "groups"
  | .unionGroup .. => "groups#group-union"
  | .alias .. => "track"

/-- The request object each operation hands to `sendPost`. -/
def Call.params (m : mixpanel) : Call → JVal
  | .track d en e => trackParams m d en e
  | .updateUser d u => .obj (updateUserParams m d u)
  | .unionUser uid u => .obj (unionUserParams m uid u)
  | .updateGroup gk gid u => .obj (updateGroupParams m gk gid u)
  | .unionGroup gk gid u => .obj (unionGroupParams m gk gid u)
  | .alias d n => aliasParams m d n

/-- Run a public operation: each builds its params and funnels into
`sendPost` with its sub-path. -/
def runCall (m : mixpanel) (c : Call) (t : Transport) : SendResult :=
  sendPost m c.subPath (c.params m) t

/-- `func NewFromClient(c *http.Client, token, apiURL string) Mixpanel`. -/
def NewFromClient (c : Nat) (token apiURL : String) : mixpanel :=
  { Client := c
    Token := token
    ApiURL := if apiURL = "" then "https://api.mixpanel.com" else apiURL }

/-- `func New(token, apiURL string) Mixpanel` (`http.DefaultClient` is the
opaque client identity `0`). -/
def New (token apiURL : String) : mixpanel :=
  NewFromClient 0 token apiURL

/-- `var IgnoreTime *time.Time = &time.Time{}`: the distinguished sentinel
pointer, identified by the dedicated constructor. -/
def IgnoreTime : TimestampPtr := .ignoreSentinel

/-- Whether `ns` starts the character list `cs`. -/
def hasPref : List Char → List Char → Bool
  | _, [] => true
  | [], _ :: _ => false
  | c :: cs, n :: ns => c = n && hasPref cs ns

/-- Whether `ns` occurs as a contiguous run inside `cs`. -/
def hasSub : List Char → List Char → Bool
  | [], ns => ns.isEmpty
  | c :: cs, ns => hasPref (c :: cs) ns || hasSub cs ns

/-- Whether `needle` occurs as a contiguous substring of `hay`. -/
def strContains (hay needle : String) : Bool :=
  hasSub hay.data needle.data

/-! Lemmas about the association-list map operations. -/

theorem JObj.get_set_self (o : JObj) (k : String) (v : JVal) :
    (o.set k v).get k = some v := by
  induction o with
  | nil => simp [JObj.set, JObj.get]
  | cons p ps ih =>
    by_cases h : p.1 = k
    · simp [JObj.set, h, JObj.get]
    · simp [JObj.set, h, JObj.get, ih]

theorem JObj.get_set_ne (o : JObj) (k' k : String) (v : JVal) (h : k' ≠ k) :
    (o.set k' v).get k = o.get k := by
  induction o with
  | nil => simp [JObj.set, JObj.get, h]
  | cons p ps ih =>
    by_cases hp : p.1 = k'
    · have hpk : ¬ p.1 = k := fun hc => h (hp.symm.trans hc)
      simp [JObj.set, hp, JObj.get, h, hpk]
    · simp [JObj.set, hp, JObj.get, ih]

theorem JObj.mem_set (o : JObj) (k : String) (v : JVal) (p : String × JVal)
    (hp : p ∈ o.set k v) : p = (k, v) ∨ p ∈ o := by
  induction o with
  | nil => simpa [JObj.set] using hp
  | cons q qs ih =>
    by_cases hq : q.1 = k
    · rcases (by simpa [JObj.set, hq] using hp : p = (k, v) ∨ p ∈ qs) with h | h
      · exact Or.inl h
      · exact Or.inr (List.mem_cons_of_mem _ h)
    · rcases (by simpa [JObj.set, hq] using hp : p = q ∨ p ∈ JObj.set qs k v) with h | h
      · exact Or.inr (h ▸ List.mem_cons_self _ _)
      · rcases ih h with h' | h'
        · exact Or.inl h'
        · exact Or.inr (List.mem_cons_of_mem _ h')

theorem JObj.mergeInto_get_of_not_mem (src : JObj) : ∀ (dst : JObj) (k : String),
    k ∉ src.map Prod.fst → (dst.mergeInto src).get k = dst.get k := by
  induction src with
  | nil => intro dst k _; rfl
  | cons p ps ih =>
    intro dst k h
    have hk : p.1 ≠ k := fun he => h (by simp [he])
    have hps : k ∉ ps.map Prod.fst := fun hm => h (by simp [hm])
    show ((dst.set p.1 p.2).mergeInto ps).get k = dst.get k
    rw [ih _ _ hps, JObj.get_set_ne _ _ _ _ hk]

theorem JObj.mergeInto_get_of_mem (src : JObj) : ∀ (dst : JObj) (k : String) (v : JVal),
    (src.map Prod.fst).Nodup → (k, v) ∈ src → (dst.mergeInto src).get k = some v := by
  induction src with
  | nil => intro dst k v _ hm; cases hm
  | cons p ps ih =>
    intro dst k v hnd hm
    rw [List.map_cons, List.nodup_cons] at hnd
    rcases List.mem_cons.mp hm with h | h
    · subst h
      have hk : k ∉ ps.map Prod.fst := hnd.1
      show ((dst.set k v).mergeInto ps).get k = some v
      rw [JObj.mergeInto_get_of_not_mem _ _ _ hk, JObj.get_set_self]
    · exact ih _ _ _ hnd.2 h

/-! Theorems settling the spec claims. -/

/-- Claim C1 (refuted by the code, the slip being in the code): the spec
says a transport-level POST failure makes the operation return a
submission-failed error wrapping the transport error, with the outer
error recording `baseURL + "/" + subPath`.  In the code the wrapped error
is built but never returned; execution falls through to
`resp.Body.Close()` on the nil response that `http.Post` returns on
failure, so every operation instead crashes with a nil-pointer
dereference. -/
theorem C1_transport_error_nil_deref (m : mixpanel) (c : Call) (msg : String) :
    (runCall m c (fun _ _ _ => .err msg none)).outcome = .nilDeref := rfl

/-- Claim C2 (refuted by the code, the slip being in the code): the spec
says a JSON-serialization failure makes the operation return a
submission-failed error and the POST is not reached.  In the code the
wrapped error is built but never returned: for a `Track` call whose
property value cannot be marshalled, the POST is still issued (with an
empty body, to the track URL) and, when the transport answers `"1"`, the
call returns nil rather than any error. -/
theorem C2_marshal_error_not_returned :
    ((Call.track "u1" "signup" ⟨"", none, [("payload", .unsupported)]⟩).params
        (NewFromClient 0 "tok" "")).serializable = false
    ∧ (runCall (NewFromClient 0 "tok" "") (.track "u1" "signup" ⟨"", none, [("payload", .unsupported)]⟩)
        (fun _ _ _ => .ok ⟨"1", none⟩)).posted
        = some ("https://api.mixpanel.com/track", "application/json", "")
    ∧ (runCall (NewFromClient 0 "tok" "") (.track "u1" "signup" ⟨"", none, [("payload", .unsupported)]⟩)
        (fun _ _ _ => .ok ⟨"1", none⟩)).outcome = .ok :=
  ⟨rfl, rfl, rfl⟩

/-- Claim C3: for every public operation, if the transport delivers a
response whose body is exactly `"1"`, the operation returns no error. -/
theorem C3_body_one_ok (m : mixpanel) (c : Call) :
    (runCall m c (fun _ _ _ => .ok ⟨"1", none⟩)).outcome = .ok := rfl

/-- Claim C4: for every operation, a delivered response body other than
`"1"` yields a submission-failed error whose `Body` is the literal
`"response not 1"` (so its message contains that text), wrapped in an
outer error recording the full request URL `baseURL + "/" + subPath`. -/
theorem C4_non_one_body (m : mixpanel) (c : Call) (body : String) (rerr : Option String)
    (h : body ≠ "1") :
    (runCall m c (fun _ _ _ => .ok ⟨body, rerr⟩)).outcome
        = .err ⟨m.ApiURL ++ "/" ++ c.subPath, ⟨"response not 1", some ⟨body, rerr⟩⟩⟩
    ∧ strContains
        (MixpanelError.errorMsg ⟨m.ApiURL ++ "/" ++ c.subPath, ⟨"response not 1", some ⟨body, rerr⟩⟩⟩)
        "response not 1" = true := by
  constructor
  · simp [runCall, sendPost, finishRead, postURL, h]
  · simp only [MixpanelError.errorMsg, ErrTrackFailed.errorMsg]
    decide

/-- Witness for C4 at `Alias "u1" "u2"` and response body `"0"`. -/
theorem C4_witness :
    ("0" : String) ≠ "1"
    ∧ ((runCall (NewFromClient 0 "tok" "") (.alias "u1" "u2")
          (fun _ _ _ => .ok ⟨"0", none⟩)).outcome
        = .err ⟨(NewFromClient 0 "tok" "").ApiURL ++ "/" ++ (Call.alias "u1" "u2").subPath,
            ⟨"response not 1", some ⟨"0", none⟩⟩⟩
      ∧ strContains
          (MixpanelError.errorMsg
            ⟨(NewFromClient 0 "tok" "").ApiURL ++ "/" ++ (Call.alias "u1" "u2").subPath,
              ⟨"response not 1", some ⟨"0", none⟩⟩⟩)
          "response not 1" = true) :=
  ⟨by decide, C4_non_one_body (NewFromClient 0 "tok" "") (.alias "u1" "u2") "0" none (by decide)⟩

/-- Claim C5: `Track` writes the reserved keys (token, distinct_id, ip,
time) first and merges the event's custom properties afterwards, so for
any key present in the custom properties (a Go map, hence duplicate-free)
the submitted properties object carries the custom value. -/
theorem C5_custom_overrides (m : mixpanel) (d : String) (e : Event) (k : String) (v : JVal)
    (hnd : (e.Properties.map Prod.fst).Nodup) (hmem : (k, v) ∈ e.Properties) :
    (trackProps m d e).get k = some v :=
  JObj.mergeInto_get_of_mem _ _ _ _ hnd hmem

/-- Witness for C5: a custom `"token"` property overrides the project
token in the submitted properties. -/
theorem C5_witness :
    ((([("plan", JVal.str "pro"), ("token", JVal.str "custom")] : JObj).map Prod.fst).Nodup
      ∧ ("token", JVal.str "custom") ∈ ([("plan", JVal.str "pro"), ("token", JVal.str "custom")] : JObj))
    ∧ (trackProps (NewFromClient 0 "tok" "") "u1"
        ⟨"", none, [("plan", JVal.str "pro"), ("token", JVal.str "custom")]⟩).get "token"
        = some (.str "custom") :=
  ⟨⟨by decide, by simp⟩,
    C5_custom_overrides (NewFromClient 0 "tok" "") "u1"
      ⟨"", none, [("plan", JVal.str "pro"), ("token", JVal.str "custom")]⟩ "token" (.str "custom")
      (by decide) (by simp)⟩

/-- Counterexample to claim C6 as stated: an `UpdateUser` call with a nil
timestamp but `Operation = "$time"` still produces a payload with a
`$time` field, because the operation key is written last. -/
theorem C6_counterexample_operation_time :
    ((updateUserParams (NewFromClient 0 "tok" "") "u1"
        ⟨"", .null, "$time", [("x", .num 1)]⟩).get "$time").isSome = true := rfl

/-- Claim C6, amended: for every `UpdateUser` call whose `Operation` is
neither `"$ignore_time"` nor `"$time"`, the payload's `$ignore_time` and
`$time` fields are exactly: `$ignore_time = true` and no `$time` for the
ignore-time sentinel; neither field for a nil timestamp; no
`$ignore_time` and `$time` equal to the epoch seconds otherwise. -/
theorem C6_time_fields (m : mixpanel) (d : String) (u : Update)
    (h1 : u.Operation ≠ "$ignore_time") (h2 : u.Operation ≠ "$time") :
    ((updateUserParams m d u).get "$ignore_time", (updateUserParams m d u).get "$time")
      = match u.Timestamp with
        | .ignoreSentinel => (some (.bool true), none)
        | .null => (none, none)
        | .time ts => (none, some (.num ts)) := by
  rcases u with ⟨ip, ts, op, props⟩
  simp only [] at h1 h2
  simp only [updateUserParams]
  rw [JObj.get_set_ne _ _ _ _ h1, JObj.get_set_ne _ _ _ _ h2]
  cases ts <;> by_cases hip : ip = "" <;> simp [hip, JObj.set, JObj.get]

/-- Witness for C6 at the ignore-time sentinel with operation `"$set"`. -/
theorem C6_witness :
    (("$set" : String) ≠ "$ignore_time" ∧ ("$set" : String) ≠ "$time")
    ∧ ((updateUserParams (NewFromClient 0 "tok" "") "u1"
          ⟨"1.2.3.4", IgnoreTime, "$set", [("name", JVal.str "x")]⟩).get "$ignore_time",
        (updateUserParams (NewFromClient 0 "tok" "") "u1"
          ⟨"1.2.3.4", IgnoreTime, "$set", [("name", JVal.str "x")]⟩).get "$time")
        = (some (.bool true), none) :=
  ⟨⟨by decide, by decide⟩,
    C6_time_fields (NewFromClient 0 "tok" "") "u1"
      ⟨"1.2.3.4", IgnoreTime, "$set", [("name", JVal.str "x")]⟩ (by decide) (by decide)⟩

/-- Claim C7: for every event with a non-nil timestamp and no custom
property named `"time"`, the submitted properties object's `"time"` field
equals the timestamp's epoch seconds. -/
theorem C7_time_field (m : mixpanel) (d : String) (e : Event) (ts : Int)
    (hts : e.Timestamp = some ts) (hnc : "time" ∉ e.Properties.map Prod.fst) :
    (trackProps m d e).get "time" = some (.num ts) := by
  rcases e with ⟨ip, ets, props⟩
  have h : ets = some ts := hts
  subst h
  have hnc' : "time" ∉ props.map Prod.fst := hnc
  simp only [trackProps]
  rw [JObj.mergeInto_get_of_not_mem _ _ _ hnc']
  exact JObj.get_set_self _ _ _

/-- Witness for C7 at timestamp 42. -/
theorem C7_witness :
    (⟨"", some 42, [("plan", JVal.str "pro")]⟩ : Event).Timestamp = some 42
    ∧ "time" ∉ ([("plan", JVal.str "pro")] : JObj).map Prod.fst
    ∧ (trackProps (NewFromClient 0 "tok" "") "u1"
        ⟨"", some 42, [("plan", JVal.str "pro")]⟩).get "time" = some (.num 42) :=
  ⟨rfl, by decide,
    C7_time_field (NewFromClient 0 "tok" "") "u1" ⟨"", some 42, [("plan", JVal.str "pro")]⟩ 42
      rfl (by decide)⟩

/-- Claim C8: a `UnionUser` call submits a request whose behaviour is
identical for any IP and Timestamp (they never influence the payload or
the result), whose operation key maps to the update's properties, and
whose keys are only the token, the distinct id and the operation name. -/
theorem C8_unionUser_ignores_ip_time (m : mixpanel) (uid ip1 ip2 op : String)
    (ts1 ts2 : TimestampPtr) (props : JObj) (t : Transport) :
    runCall m (.unionUser uid ⟨ip1, ts1, op, props⟩) t
      = runCall m (.unionUser uid ⟨ip2, ts2, op, props⟩) t
    ∧ (unionUserParams m uid ⟨ip1, ts1, op, props⟩).get op = some (.obj props)
    ∧ ∀ p ∈ unionUserParams m uid ⟨ip1, ts1, op, props⟩,
        p.1 = "$token" ∨ p.1 = "$distinct_id" ∨ p.1 = op := by
  refine ⟨rfl, JObj.get_set_self _ _ _, fun p hp => ?_⟩
  have hp' : p ∈ JObj.set [("$token", JVal.str m.Token), ("$distinct_id", JVal.str uid)]
      op (.obj props) := hp
  rcases JObj.mem_set _ _ _ _ hp' with h | h
  · exact Or.inr (Or.inr (by rw [h]))
  · rcases List.mem_cons.mp h with h' | h'
    · exact Or.inl (by rw [h'])
    · exact Or.inr (Or.inl (by rw [List.mem_singleton.mp h']))

/-- Claim C9: for every operation whose request object is serializable,
the HTTP body handed to the transport is the JSON rendering of a
single-element array containing exactly the operation's request object,
posted to `baseURL + "/" + subPath` as `application/json`. -/
theorem C9_single_element_envelope (m : mixpanel) (c : Call) (t : Transport)
    (h : (c.params m).serializable = true) :
    (runCall m c t).posted
      = some (m.ApiURL ++ "/" ++ c.subPath, "application/json",
          JVal.render (.arr [c.params m])) := by
  have hb : postBody (c.params m) = JVal.render (.arr [c.params m]) := by
    simp [postBody, marshal, JVal.serializable, serializableList, h]
  show (sendPost m c.subPath (c.params m) t).posted = _
  unfold sendPost
  rcases ht : t (postURL m c.subPath) "application/json" (postBody (c.params m)) with
    ⟨msg, _ | r⟩ | r
  · simp [ht, hb, postURL]
  · simp [ht, finishRead, hb, postURL]
    split <;> simp
  · simp [ht, finishRead, hb, postURL]
    split <;> simp

/-- Witness for C9 at `Alias "u1" "u2"`. -/
theorem C9_witness :
    ((Call.alias "u1" "u2").params (NewFromClient 0 "tok" "")).serializable = true
    ∧ (runCall (NewFromClient 0 "tok" "") (.alias "u1" "u2")
        (fun _ _ _ => .ok ⟨"1", none⟩)).posted
      = some ((NewFromClient 0 "tok" "").ApiURL ++ "/" ++ (Call.alias "u1" "u2").subPath,
          "application/json",
          JVal.render (.arr [(Call.alias "u1" "u2").params (NewFromClient 0 "tok" "")])) :=
  ⟨rfl, C9_single_element_envelope (NewFromClient 0 "tok" "") (.alias "u1" "u2")
    (fun _ _ _ => .ok ⟨"1", none⟩) rfl⟩

/-- Claim C10: two clients built by `NewFromClient` that differ only in
the supplied `http.Client` behave identically on every operation,
transport behaviour and input: the stored `Client` field is never
consulted by the submission path (which calls `http.Post`, the
package-default client). -/
theorem C10_client_never_consulted (c1 c2 : Nat) (token apiURL : String) (c : Call)
    (t : Transport) :
    runCall (NewFromClient c1 token apiURL) c t = runCall (NewFromClient c2 token apiURL) c t := by
  cases c <;> rfl

end Mixpanel
